import Mathlib

/-!
Shallow embedding of the waste-statistics dashboard (src/myfile.py).

The script loads a semicolon-delimited CSV, cleans its text and numeric
columns (load_data, lines 16-40), filters to one region, computes the
per-district percent variation of GPC_DOM between two selected years
(lines 190-201), and renders a detail view from the first row matching a
(region, district, year) selection (create_pie_chart_and_metrics,
lines 94-157).  Floating point values are modelled as rationals, pandas
dataframes as lists of records, and the Streamlit control flow as a
function from the loaded table and the widget selections to a view value.
The ñ of the AÑO column is written as plain n in identifiers.
-/

/-! ### Numeric field cleaning (src/myfile.py lines 30-35) -/

/-- Digits of a decimal numeral folded into a natural number. -/
def digitsToNat (l : List Char) : Nat :=
  l.foldl (fun n c => 10 * n + (c.toNat - '0'.toNat)) 0

/-- Longest prefix of decimal digits, together with the rest of the input. -/
def takeDigits : List Char → (List Char × List Char)
  | [] => ([], [])
  | c :: cs =>
    if c.isDigit then
      let (d, r) := takeDigits cs
      (c :: d, r)
    else ([], c :: cs)

/-- Optional leading sign; returns (negative?, rest). -/
def parse_sign : List Char → (Bool × List Char)
  | [] => (false, [])
  | c :: cs => if c = '-' then (true, cs) else if c = '+' then (false, cs) else (false, c :: cs)

/-- Optional fractional part introduced by a period. -/
def parse_fraction : List Char → (List Char × List Char)
  | [] => ([], [])
  | c :: cs => if c = '.' then takeDigits cs else ([], c :: cs)

/-- Optional exponent part; the whole remaining input must be consumed. -/
def parse_exponent : List Char → Option Int
  | [] => some 0
  | c :: cs =>
    if c = 'e' ∨ c = 'E' then
      let (neg, cs1) := parse_sign cs
      let (d, rest) := takeDigits cs1
      if d = [] ∨ rest ≠ [] then none
      else some (if neg then -(digitsToNat d : Int) else (digitsToNat d : Int))
    else none

/-- Model of the numeric parse performed by pandas to_numeric on a string
cell: optional sign, digits with an optional fractional part, optional
exponent.  Returns none exactly when the string does not parse (the
coerce mode of to_numeric then yields NaN, which the loader fills with 0).
Special floating values such as infinities are outside the model. -/
def parseDecimal (l : List Char) : Option ℚ :=
  let (neg, cs1) := parse_sign l
  let (d1, cs2) := takeDigits cs1
  let (d2, cs3) := parse_fraction cs2
  if d1 = [] ∧ d2 = [] then none
  else
    match parse_exponent cs3 with
    | none => none
    | some e =>
      let mant : ℚ := (digitsToNat (d1 ++ d2) : ℚ) / (10 : ℚ) ^ d2.length
      let v : ℚ := mant * (10 : ℚ) ^ e
      some (if neg then -v else v)

/-- Line 34: the comma-to-period substitution on a single character. -/
def coma_a_punto (c : Char) : Char := if c = ',' then '.' else c

/-- Line 34: commas become periods and plain spaces are removed. -/
def limpia_campo (s : String) : List Char :=
  (s.data.map coma_a_punto).filter (fun c => decide (c ≠ ' '))

/-- Lines 34-35: clean a raw numeric field; parse failures become 0. -/
def to_numeric_clean (s : String) : ℚ :=
  (parseDecimal (limpia_campo s)).getD 0

/-! ### Text normalization (src/myfile.py lines 26-27) -/

/-- Model of unidecode restricted to single characters, covering the
Latin-1 accented letters that occur in the latin1-encoded input file;
characters outside the table are left unchanged. -/
def unidecodeChar (c : Char) : Char :=
  match c with
  | 'À' | 'Á' | 'Â' | 'Ã' | 'Ä' | 'Å' => 'A'
  | 'à' | 'á' | 'â' | 'ã' | 'ä' | 'å' => 'a'
  | 'È' | 'É' | 'Ê' | 'Ë' => 'E'
  | 'è' | 'é' | 'ê' | 'ë' => 'e'
  | 'Ì' | 'Í' | 'Î' | 'Ï' => 'I'
  | 'ì' | 'í' | 'î' | 'ï' => 'i'
  | 'Ò' | 'Ó' | 'Ô' | 'Õ' | 'Ö' => 'O'
  | 'ò' | 'ó' | 'ô' | 'õ' | 'ö' => 'o'
  | 'Ù' | 'Ú' | 'Û' | 'Ü' => 'U'
  | 'ù' | 'ú' | 'û' | 'ü' => 'u'
  | 'Ñ' => 'N'
  | 'ñ' => 'n'
  | 'Ç' => 'C'
  | 'ç' => 'c'
  | 'Ý' => 'Y'
  | 'ý' | 'ÿ' => 'y'
  | 'Ÿ' => 'Y'
  | _ => c

/-- Model of the Python uppercase map used to form case variants of the
input: the covered accented lowercase letters go to their accented
uppercase forms, everything else follows the ASCII uppercase map. -/
def pyUpperChar (c : Char) : Char :=
  match c with
  | 'à' => 'À' | 'á' => 'Á' | 'â' => 'Â' | 'ã' => 'Ã' | 'ä' => 'Ä' | 'å' => 'Å'
  | 'è' => 'È' | 'é' => 'É' | 'ê' => 'Ê' | 'ë' => 'Ë'
  | 'ì' => 'Ì' | 'í' => 'Í' | 'î' => 'Î' | 'ï' => 'Ï'
  | 'ò' => 'Ò' | 'ó' => 'Ó' | 'ô' => 'Ô' | 'õ' => 'Õ' | 'ö' => 'Ö'
  | 'ù' => 'Ù' | 'ú' => 'Ú' | 'û' => 'Û' | 'ü' => 'Ü'
  | 'ñ' => 'Ñ' | 'ç' => 'Ç' | 'ý' => 'Ý' | 'ÿ' => 'Ÿ'
  | _ => c.toUpper

/-- Apply the unidecode model to each character of a string. -/
def unidecodeStr (s : String) : String := ⟨s.data.map unidecodeChar⟩

/-- Apply the uppercase model to each character of a string. -/
def pyUpperStr (s : String) : String := ⟨s.data.map pyUpperChar⟩

/-- Whitespace stripped from both ends, as the Python strip method. -/
def strip_ws (l : List Char) : List Char :=
  (((l.dropWhile Char.isWhitespace).reverse).dropWhile Char.isWhitespace).reverse

/-- Line 26: unidecode applied to each character, then uppercase. -/
def normaliza_texto (s : String) : String :=
  ⟨(s.data.map unidecodeChar).map Char.toUpper⟩

/-- Line 27: the district column additionally gets stripped. -/
def normaliza_distrito (s : String) : String :=
  ⟨strip_ws ((s.data.map unidecodeChar).map Char.toUpper)⟩

/-! ### Records and the loader (src/myfile.py lines 16-40) -/

/-- One CSV row before cleaning: text fields as read from the file, the
year already cast to an integer (line 28). -/
structure RawRow where
  departamento : String
  distrito : String
  anio : Int
  gpc_dom : String
  qresiduos_dom : String
  qresiduos_no_dom : String
  residuos_municipales : String
deriving DecidableEq

/-- One cleaned record of the in-memory table. -/
structure Row where
  departamento : String
  distrito : String
  anio : Int
  gpc_dom : ℚ
  qresiduos_dom : ℚ
  qresiduos_no_dom : ℚ
  residuos_municipales : ℚ
deriving DecidableEq

/-- Lines 26-35 applied to one row. -/
def clean_row (r : RawRow) : Row where
  departamento := normaliza_texto r.departamento
  distrito := normaliza_distrito r.distrito
  anio := r.anio
  gpc_dom := to_numeric_clean r.gpc_dom
  qresiduos_dom := to_numeric_clean r.qresiduos_dom
  qresiduos_no_dom := to_numeric_clean r.qresiduos_no_dom
  residuos_municipales := to_numeric_clean r.residuos_municipales

/-- Lines 16-40: none stands for a read that raised (absent or unparsable
file); the except branch returns an empty dataframe. -/
def load_data : Option (List RawRow) → List Row
  | none => []
  | some raws => raws.map clean_row

/-! ### Variation pipeline (src/myfile.py lines 190-201) -/

/-- Line 173: rows of the selected region. -/
def filtro_departamento (df : List Row) (dep : String) : List Row :=
  df.filter (fun r => decide (r.departamento = dep))

/-- Line 191: district and GPC_DOM of the rows at the start year. -/
def df_start (dfDep : List Row) (sy : Int) : List (String × ℚ) :=
  (dfDep.filter (fun r => decide (r.anio = sy))).map (fun r => (r.distrito, r.gpc_dom))

/-- Line 192: district and GPC_DOM of the rows at the end year. -/
def df_end (dfDep : List Row) (ey : Int) : List (String × ℚ) :=
  (dfDep.filter (fun r => decide (r.anio = ey))).map (fun r => (r.distrito, r.gpc_dom))

/-- One row of the merged frame of line 194. -/
structure MergedRow where
  distrito : String
  gpcStart : ℚ
  gpcEnd : ℚ
deriving DecidableEq

/-- Line 194: inner join on DISTRITO, left order preserved, every matching
right row paired with its left row. -/
def merge_inner (l r : List (String × ℚ)) : List MergedRow :=
  l.flatMap (fun p => (r.filter (fun q => decide (q.1 = p.1))).map (fun q => ⟨p.1, p.2, q.2⟩))

/-- Lines 195-196: zeros become missing and rows missing either endpoint
are dropped, so only rows with both endpoints nonzero remain. -/
def replace0_dropna (m : List MergedRow) : List MergedRow :=
  m.filter (fun x => decide (x.gpcStart ≠ 0 ∧ x.gpcEnd ≠ 0))

/-- One row of the final variation frame (lines 198-201). -/
structure VariationRow where
  distrito : String
  incremento : ℚ
  gpcStart : ℚ
  gpcEnd : ℚ
deriving DecidableEq

/-- Line 198: the percent change column. -/
def add_incremento (m : List MergedRow) : List VariationRow :=
  m.map (fun x => ⟨x.distrito, (x.gpcEnd - x.gpcStart) / x.gpcStart * 100, x.gpcStart, x.gpcEnd⟩)

/-- Descending comparison on the percent-change column. -/
def incrPct_ge (a b : VariationRow) : Prop := b.incremento ≤ a.incremento

instance : DecidableRel incrPct_ge :=
  fun a b => inferInstanceAs (Decidable (b.incremento ≤ a.incremento))

instance : IsTotal VariationRow incrPct_ge :=
  ⟨fun a b => le_total b.incremento a.incremento⟩

instance : IsTrans VariationRow incrPct_ge :=
  ⟨fun _ _ _ hab hbc => le_trans hbc hab⟩

/-- Line 200: the descending sort on the percent-change column, modelled
as a comparison sort by the descending relation. -/
def sort_values_desc (l : List VariationRow) : List VariationRow :=
  List.insertionSort incrPct_ge l

/-- Lines 190-200: the full variation computation on the region table,
ending with the first fifteen rows. -/
def df_plot_top15 (dfDep : List Row) (sy ey : Int) : List VariationRow :=
  (sort_values_desc (add_incremento (replace0_dropna
    (merge_inner (df_start dfDep sy) (df_end dfDep ey))))).take 15

/-- The variation result for a region of the full table. -/
def top_variacion (df_all : List Row) (dep : String) (sy ey : Int) : List VariationRow :=
  df_plot_top15 (filtro_departamento df_all dep) sy ey

/-! ### Detail view (src/myfile.py lines 94-157) -/

/-- The three summary metrics of the detail view (lines 107-154). -/
structure DetailMetrics where
  residuos_dom : ℚ
  residuos_no_dom : ℚ
  total : ℚ
deriving DecidableEq

/-- Lines 97-157: filter to the selection, take the first matching row,
and build the pie metrics; an empty match yields only a warning (none). -/
def create_pie_chart_and_metrics (df : List Row) (dep dist : String) (y : Int) :
    Option DetailMetrics :=
  match df.filter (fun r => decide (r.departamento = dep ∧ r.distrito = dist ∧ r.anio = y)) with
  | [] => none
  | fila :: _ => some ⟨fila.qresiduos_dom, fila.qresiduos_no_dom,
      fila.qresiduos_dom + fila.qresiduos_no_dom⟩

/-! ### Application control flow (src/myfile.py lines 159-285) -/

/-- Widget selections of one session. -/
structure Selections where
  departamento : String
  start_year : Int
  end_year : Int
  distrito_pie : String
  anio_pie : Int

/-- What one render pass produces: one of the three terminal error
messages, or the dashboard views. -/
inductive AppView where
  | loadError
  | fewYearsError
  | yearOrderError
  | dashboard (top15 : List VariationRow) (detalle : Option DetailMetrics)
deriving DecidableEq

/-- Lines 159-285: an empty table shows the load error (lines 284-285);
fewer than two distinct years in the region shows the year-availability
error (lines 176-177); a start year not below the end year shows the
ordering error and computes nothing (lines 187-188); otherwise the charts
run. -/
def run_app (df_all : List Row) (sel : Selections) : AppView :=
  if df_all.isEmpty then .loadError
  else if (((filtro_departamento df_all sel.departamento).map (fun r => r.anio)).dedup).length < 2
    then .fewYearsError
  else if sel.end_year ≤ sel.start_year then .yearOrderError
  else .dashboard
    (df_plot_top15 (filtro_departamento df_all sel.departamento) sel.start_year sel.end_year)
    (create_pie_chart_and_metrics (filtro_departamento df_all sel.departamento)
      sel.departamento sel.distrito_pie sel.anio_pie)

/-! ### Example tables -/

/-- The end-to-end scenario of the spec, section 8: district A doubles,
district B has a zero start value. -/
def tablaEjemplo : List Row :=
  [⟨"LIMA", "A", 2019, 10, 1, 1, 1⟩, ⟨"LIMA", "A", 2020, 20, 1, 1, 1⟩,
   ⟨"LIMA", "B", 2019, 0, 1, 1, 1⟩, ⟨"LIMA", "B", 2020, 5, 1, 1, 1⟩]

/-- District A goes from 100 to 150, district C from 100 to 50. -/
def tablaC3 : List Row :=
  [⟨"LIMA", "A", 2019, 100, 1, 1, 1⟩, ⟨"LIMA", "A", 2020, 150, 1, 1, 1⟩,
   ⟨"LIMA", "C", 2019, 100, 1, 1, 1⟩, ⟨"LIMA", "C", 2020, 50, 1, 1, 1⟩]

/-- A raw row whose GPC_DOM field holds a negative numeral. -/
def filaNegativa : RawRow := ⟨"LIMA", "A", 2019, "-5", "1", "1", "1"⟩

/-- A raw row whose four numeric fields all fail to parse. -/
def filaMala : RawRow := ⟨"LIMA", "A", 2019, "x", "x", "x", "x"⟩

/-- Two rows for the same region, district and year. -/
def tablaDuplicados : List Row :=
  [⟨"LIMA", "A", 2019, 1, 10, 20, 30⟩, ⟨"LIMA", "A", 2019, 2, 90, 80, 70⟩]

/-- All four numeric fields of a cleaned record are non-negative. -/
def campos_no_negativos (r : Row) : Prop :=
  0 ≤ r.gpc_dom ∧ 0 ≤ r.qresiduos_dom ∧ 0 ≤ r.qresiduos_no_dom ∧ 0 ≤ r.residuos_municipales

/-! ### Helper lemmas -/

theorem take_sort_subset (l : List VariationRow) (n : Nat) :
    (sort_values_desc l).take n ⊆ l := by
  intro v hv
  have h1 := List.take_subset n _ hv
  rw [sort_values_desc, List.mem_insertionSort] at h1
  exact h1

theorem mem_filtro_departamento {df : List Row} {dep : String} {r : Row} :
    r ∈ filtro_departamento df dep ↔ r ∈ df ∧ r.departamento = dep := by
  simp [filtro_departamento, List.mem_filter]

/-- Every row of the variation result comes from one region row at the
start year and one at the end year for the same district, both with
nonzero metric values, and carries the percent-change formula. -/
theorem mem_df_plot_top15 {dfDep : List Row} {sy ey : Int} {v : VariationRow}
    (hv : v ∈ df_plot_top15 dfDep sy ey) :
    ∃ rs ∈ dfDep, ∃ re ∈ dfDep,
      rs.anio = sy ∧ re.anio = ey ∧ re.distrito = rs.distrito ∧
      v.distrito = rs.distrito ∧ v.gpcStart = rs.gpc_dom ∧ v.gpcEnd = re.gpc_dom ∧
      v.gpcStart ≠ 0 ∧ v.gpcEnd ≠ 0 ∧
      v.incremento = (v.gpcEnd - v.gpcStart) / v.gpcStart * 100 := by
  have h1 : v ∈ add_incremento (replace0_dropna
      (merge_inner (df_start dfDep sy) (df_end dfDep ey))) := take_sort_subset _ _ hv
  rw [add_incremento, List.mem_map] at h1
  obtain ⟨x, hx, hvx⟩ := h1
  rw [replace0_dropna, List.mem_filter, decide_eq_true_eq] at hx
  obtain ⟨hxm, hxs, hxe⟩ := hx
  rw [merge_inner, List.mem_flatMap] at hxm
  obtain ⟨p, hp, hxp⟩ := hxm
  rw [List.mem_map] at hxp
  obtain ⟨q, hq, hxq⟩ := hxp
  rw [List.mem_filter, decide_eq_true_eq] at hq
  obtain ⟨hq1, hq2⟩ := hq
  rw [df_start, List.mem_map] at hp
  obtain ⟨rs, hrs, hprs⟩ := hp
  rw [List.mem_filter, decide_eq_true_eq] at hrs
  rw [df_end, List.mem_map] at hq1
  obtain ⟨re, hre, hqre⟩ := hq1
  rw [List.mem_filter, decide_eq_true_eq] at hre
  refine ⟨rs, hrs.1, re, hre.1, hrs.2, hre.2, ?_⟩
  subst hvx hxq hprs hqre
  exact ⟨hq2, rfl, rfl, rfl, hxs, hxe, rfl⟩

/-! ### Claims -/

/-- Claim C1: for every region and every year pair with the start year
below the end year, the variation result has at most 15 rows and its rows
are in non-increasing order of percent change. -/
theorem c1_top15_longitud_y_orden (df_all : List Row) (dep : String) (sy ey : Int)
    (_h : sy < ey) :
    (top_variacion df_all dep sy ey).length ≤ 15 ∧
    (top_variacion df_all dep sy ey).Pairwise (fun a b => b.incremento ≤ a.incremento) := by
  constructor
  · rw [top_variacion, df_plot_top15]
    exact List.length_take_le 15 _
  · have hs : List.Sorted incrPct_ge
        (sort_values_desc (add_incremento (replace0_dropna
          (merge_inner (df_start (filtro_departamento df_all dep) sy)
            (df_end (filtro_departamento df_all dep) ey))))) :=
      List.sorted_insertionSort incrPct_ge _
    exact List.Pairwise.sublist (List.take_sublist _ _) hs

/-- Witness for C1 on the example table. -/
theorem c1_top15_longitud_y_orden_witness :
    (2019 : Int) < 2020 ∧
    ((top_variacion tablaEjemplo "LIMA" 2019 2020).length ≤ 15 ∧
      (top_variacion tablaEjemplo "LIMA" 2019 2020).Pairwise
        (fun a b => b.incremento ≤ a.incremento)) :=
  ⟨by decide, c1_top15_longitud_y_orden tablaEjemplo "LIMA" 2019 2020 (by decide)⟩

/-- Claim C2: a district all of whose region rows at the start year (or
all at the end year) carry a zero metric value never appears in the
variation result, and every result row stems from rows present at both
years with nonzero values at both. -/
theorem c2_exclusion_valores_cero (df_all : List Row) (dep d : String) (sy ey : Int)
    (hz : (∀ r ∈ df_all, r.departamento = dep → r.distrito = d → r.anio = sy → r.gpc_dom = 0) ∨
          (∀ r ∈ df_all, r.departamento = dep → r.distrito = d → r.anio = ey → r.gpc_dom = 0)) :
    (∀ v ∈ top_variacion df_all dep sy ey, v.distrito ≠ d) ∧
    (∀ v ∈ top_variacion df_all dep sy ey,
      v.gpcStart ≠ 0 ∧ v.gpcEnd ≠ 0 ∧
      (∃ rs ∈ df_all, rs.departamento = dep ∧ rs.anio = sy ∧ rs.distrito = v.distrito ∧
        rs.gpc_dom = v.gpcStart) ∧
      (∃ re ∈ df_all, re.departamento = dep ∧ re.anio = ey ∧ re.distrito = v.distrito ∧
        re.gpc_dom = v.gpcEnd)) := by
  constructor
  · intro v hv hd
    obtain ⟨rs, hrs, re, hre, hsy, hey, hsd, hvd, hvs, hve, hs0, he0, _⟩ := mem_df_plot_top15 hv
    rw [mem_filtro_departamento] at hrs hre
    rcases hz with hzl | hzr
    · exact hs0 (hvs.trans (hzl rs hrs.1 hrs.2 (by rw [← hvd]; exact hd) hsy))
    · exact he0 (hve.trans (hzr re hre.1 hre.2 (by rw [hsd, ← hvd]; exact hd) hey))
  · intro v hv
    obtain ⟨rs, hrs, re, hre, hsy, hey, hsd, hvd, hvs, hve, hs0, he0, _⟩ := mem_df_plot_top15 hv
    rw [mem_filtro_departamento] at hrs hre
    exact ⟨hs0, he0, ⟨rs, hrs.1, hrs.2, hsy, hvd.symm, hvs.symm⟩,
      ⟨re, hre.1, hre.2, hey, hsd.trans hvd.symm, hve.symm⟩⟩

/-- Witness for C2: in the example table district B has metric value 0 at
the start year 2019 and is absent from the result. -/
theorem c2_exclusion_valores_cero_witness :
    (∀ r ∈ tablaEjemplo, r.departamento = "LIMA" → r.distrito = "B" → r.anio = 2019 →
      r.gpc_dom = 0) ∧
    ((∀ v ∈ top_variacion tablaEjemplo "LIMA" 2019 2020, v.distrito ≠ "B") ∧
     (∀ v ∈ top_variacion tablaEjemplo "LIMA" 2019 2020,
       v.gpcStart ≠ 0 ∧ v.gpcEnd ≠ 0 ∧
       (∃ rs ∈ tablaEjemplo, rs.departamento = "LIMA" ∧ rs.anio = 2019 ∧
         rs.distrito = v.distrito ∧ rs.gpc_dom = v.gpcStart) ∧
       (∃ re ∈ tablaEjemplo, re.departamento = "LIMA" ∧ re.anio = 2020 ∧
         re.distrito = v.distrito ∧ re.gpc_dom = v.gpcEnd))) :=
  ⟨by decide, c2_exclusion_valores_cero tablaEjemplo "LIMA" "B" 2019 2020 (Or.inl (by decide))⟩

/-- Claim C3: every row of the variation result has a nonzero start value
and its percent change equals (end - start) / start times 100 exactly; on
the concrete table, district A going from 100 to 150 yields exactly 50
and district C going from 100 to 50 yields exactly -50. -/
theorem c3_formula_incremento (df_all : List Row) (dep : String) (sy ey : Int) :
    (∀ v ∈ top_variacion df_all dep sy ey,
      v.gpcStart ≠ 0 ∧ v.incremento = (v.gpcEnd - v.gpcStart) / v.gpcStart * 100) ∧
    top_variacion tablaC3 "LIMA" 2019 2020 =
      [⟨"A", 50, 100, 150⟩, ⟨"C", -50, 100, 50⟩] := by
  constructor
  · intro v hv
    obtain ⟨_, _, _, _, _, _, _, _, _, _, hs0, _, hinc⟩ := mem_df_plot_top15 hv
    exact ⟨hs0, hinc⟩
  · simp [top_variacion, df_plot_top15, filtro_departamento, df_start, df_end, merge_inner,
      replace0_dropna, add_incremento, sort_values_desc, tablaC3, List.insertionSort,
      incrPct_ge]
    norm_num

/-- Witness for C3 at the row of district A. -/
theorem c3_formula_incremento_witness :
    (⟨"A", 50, 100, 150⟩ : VariationRow) ∈ top_variacion tablaC3 "LIMA" 2019 2020 ∧
    ((⟨"A", 50, 100, 150⟩ : VariationRow).gpcStart ≠ 0 ∧
      (⟨"A", 50, 100, 150⟩ : VariationRow).incremento =
        ((⟨"A", 50, 100, 150⟩ : VariationRow).gpcEnd -
          (⟨"A", 50, 100, 150⟩ : VariationRow).gpcStart) /
          (⟨"A", 50, 100, 150⟩ : VariationRow).gpcStart * 100) := by
  have hmem : (⟨"A", 50, 100, 150⟩ : VariationRow) ∈ top_variacion tablaC3 "LIMA" 2019 2020 := by
    rw [(c3_formula_incremento tablaC3 "LIMA" 2019 2020).2]
    exact List.mem_cons_self _ _
  exact ⟨hmem, (c3_formula_incremento tablaC3 "LIMA" 2019 2020).1 _ hmem⟩

/-- Claim C4: with data loaded and at least two years available, a start
year greater than or equal to the end year makes the app show the year
ordering error and compute no variation result. -/
theorem c4_rechazo_anios_invalidos (df_all : List Row) (sel : Selections)
    (hne : df_all ≠ [])
    (hyears : 2 ≤
      (((filtro_departamento df_all sel.departamento).map (fun r => r.anio)).dedup).length)
    (hord : sel.end_year ≤ sel.start_year) :
    run_app df_all sel = AppView.yearOrderError := by
  rw [run_app]
  have h1 : df_all.isEmpty = false := by
    simpa [List.isEmpty_iff] using hne
  rw [h1]
  simp only [Bool.false_eq_true, if_false]
  rw [if_neg (by omega), if_pos hord]

/-- Witness for C4: start year 2020, end year 2019 on the example table. -/
theorem c4_rechazo_anios_invalidos_witness :
    tablaEjemplo ≠ [] ∧
    2 ≤ (((filtro_departamento tablaEjemplo "LIMA").map (fun r => r.anio)).dedup).length ∧
    ((2019 : Int) ≤ 2020) ∧
    run_app tablaEjemplo ⟨"LIMA", 2020, 2019, "A", 2020⟩ = AppView.yearOrderError :=
  ⟨by decide, by decide, by decide,
    c4_rechazo_anios_invalidos tablaEjemplo ⟨"LIMA", 2020, 2019, "A", 2020⟩
      (by decide) (by decide) (by decide)⟩

/-- Claim C5: the loader turns the comma-decimal string 12,5 into the
number 12.5, and any string whose cleaned form fails the numeric parse
becomes 0 instead of an error, uniformly on all four numeric fields. -/
theorem c5_conversion_decimal (s : String)
    (h : parseDecimal (limpia_campo s) = none) :
    to_numeric_clean "12,5" = 25 / 2 ∧
    to_numeric_clean "abc" = 0 ∧
    to_numeric_clean s = 0 ∧
    (∀ raw : RawRow, (clean_row raw).gpc_dom = to_numeric_clean raw.gpc_dom ∧
      (clean_row raw).qresiduos_dom = to_numeric_clean raw.qresiduos_dom ∧
      (clean_row raw).qresiduos_no_dom = to_numeric_clean raw.qresiduos_no_dom ∧
      (clean_row raw).residuos_municipales = to_numeric_clean raw.residuos_municipales) := by
  refine ⟨?_, ?_, ?_, fun raw => ⟨rfl, rfl, rfl, rfl⟩⟩
  · simp [to_numeric_clean, limpia_campo, parseDecimal, parse_sign, parse_fraction,
      parse_exponent, takeDigits, digitsToNat, coma_a_punto]
    norm_num
  · simp [to_numeric_clean, limpia_campo, parseDecimal, parse_sign, parse_fraction,
      parse_exponent, takeDigits, digitsToNat, coma_a_punto]
  · rw [to_numeric_clean, h]
    rfl

/-- Witness for C5 at the unparsable string abc. -/
theorem c5_conversion_decimal_witness :
    parseDecimal (limpia_campo "abc") = none ∧
    (to_numeric_clean "12,5" = 25 / 2 ∧
     to_numeric_clean "abc" = 0 ∧
     to_numeric_clean "abc" = 0 ∧
     (∀ raw : RawRow, (clean_row raw).gpc_dom = to_numeric_clean raw.gpc_dom ∧
       (clean_row raw).qresiduos_dom = to_numeric_clean raw.qresiduos_dom ∧
       (clean_row raw).qresiduos_no_dom = to_numeric_clean raw.qresiduos_no_dom ∧
       (clean_row raw).residuos_municipales = to_numeric_clean raw.residuos_municipales)) :=
  ⟨by decide, c5_conversion_decimal "abc" (by decide)⟩

set_option maxRecDepth 8192 in
theorem upper_uni_pyUpper_fin : ∀ n : Fin 256,
    Char.toUpper (unidecodeChar (pyUpperChar (Char.ofNat n.val))) =
    Char.toUpper (unidecodeChar (Char.ofNat n.val)) := by decide

set_option maxRecDepth 8192 in
theorem upper_uni_uni_fin : ∀ n : Fin 256,
    Char.toUpper (unidecodeChar (unidecodeChar (Char.ofNat n.val))) =
    Char.toUpper (unidecodeChar (Char.ofNat n.val)) := by decide

/-- On Latin-1 characters, uppercasing before normalization does not
change the normalized character. -/
theorem upper_uni_pyUpper (c : Char) (h : c.toNat < 256) :
    Char.toUpper (unidecodeChar (pyUpperChar c)) = Char.toUpper (unidecodeChar c) := by
  have h2 := upper_uni_pyUpper_fin ⟨c.toNat, h⟩
  simpa [Char.ofNat_toNat] using h2

/-- On Latin-1 characters, stripping accents before normalization does
not change the normalized character. -/
theorem upper_uni_uni (c : Char) (h : c.toNat < 256) :
    Char.toUpper (unidecodeChar (unidecodeChar c)) = Char.toUpper (unidecodeChar c) := by
  have h2 := upper_uni_uni_fin ⟨c.toNat, h⟩
  simpa [Char.ofNat_toNat] using h2

/-- Claim C6: normalization maps case variants and accented variants of a
Latin-1 string (the encoding of the input file) to the same key, and the
variants of Lima all normalize to the uppercase accent-free LIMA. -/
theorem c6_normalizacion_clave (s : String)
    (hlatin : ∀ c ∈ s.data, c.toNat < 256) :
    normaliza_texto (pyUpperStr s) = normaliza_texto s ∧
    normaliza_texto (unidecodeStr s) = normaliza_texto s ∧
    normaliza_distrito (pyUpperStr s) = normaliza_distrito s ∧
    normaliza_distrito (unidecodeStr s) = normaliza_distrito s ∧
    normaliza_texto "Lima" = "LIMA" ∧ normaliza_texto "LIMA" = "LIMA" ∧
    normaliza_distrito "Líma" = "LIMA" ∧ normaliza_texto "LÍMA" = "LIMA" := by
  have key : ∀ f : Char → Char,
      (∀ c ∈ s.data, Char.toUpper (unidecodeChar (f c)) = Char.toUpper (unidecodeChar c)) →
      ((s.data.map f).map unidecodeChar).map Char.toUpper =
        (s.data.map unidecodeChar).map Char.toUpper := by
    intro f hf
    rw [List.map_map, List.map_map, List.map_map]
    exact List.map_congr_left (fun c hc => hf c hc)
  have h1 := key pyUpperChar (fun c hc => upper_uni_pyUpper c (hlatin c hc))
  have h2 := key unidecodeChar (fun c hc => upper_uni_uni c (hlatin c hc))
  exact ⟨congrArg String.mk h1, congrArg String.mk h2,
    congrArg (fun l => String.mk (strip_ws l)) h1,
    congrArg (fun l => String.mk (strip_ws l)) h2,
    by decide, by decide, by decide, by decide⟩

/-- Witness for C6 on the accented mixed-case string Líma. -/
theorem c6_normalizacion_clave_witness :
    (∀ c ∈ "Líma".data, c.toNat < 256) ∧
    (normaliza_texto (pyUpperStr "Líma") = normaliza_texto "Líma" ∧
     normaliza_texto (unidecodeStr "Líma") = normaliza_texto "Líma" ∧
     normaliza_distrito (pyUpperStr "Líma") = normaliza_distrito "Líma" ∧
     normaliza_distrito (unidecodeStr "Líma") = normaliza_distrito "Líma" ∧
     normaliza_texto "Lima" = "LIMA" ∧ normaliza_texto "LIMA" = "LIMA" ∧
     normaliza_distrito "Líma" = "LIMA" ∧ normaliza_texto "LÍMA" = "LIMA") :=
  ⟨by decide, c6_normalizacion_clave "Líma" (by decide)⟩

/-- Claim C8: when the file read fails (absent or unparsable), the app
shows the load error view, which carries no chart, metric or partial
dashboard, whatever the widget selections are. -/
theorem c8_fallo_carga_detiene (sel : Selections) :
    run_app (load_data none) sel = AppView.loadError := rfl

/-- Counterexample to claim C9: on a raw row whose GPC_DOM field is the
string -5, the cleaned table has a negative field, so the non-negativity
invariant does not hold for every input. -/
theorem c9_contraejemplo_negativo :
    ¬ ∀ r ∈ load_data (some [filaNegativa]), campos_no_negativos r := by
  intro hall
  have h := hall (clean_row filaNegativa) (by simp [load_data])
  have hg : (clean_row filaNegativa).gpc_dom = -5 := by
    simp [clean_row, filaNegativa, to_numeric_clean, limpia_campo, parseDecimal, parse_sign,
      parse_fraction, parse_exponent, takeDigits, digitsToNat, coma_a_punto]
  rw [campos_no_negativos, hg] at h
  exact absurd h.1 (by norm_num)

/-- Claim C9 as amended: malformed values are coerced to zero; all four
numeric fields of every loaded row are non-negative provided every raw
field value that parses parses to a non-negative number (the unmodified
claim fails on negative numerals, which the loader keeps); and the
invariant is preserved by every subsequent stage: by every filter, by
the variation computation (start and end values of every result row
stay non-negative) and by the detail computation (the two displayed
quantities and their total stay non-negative). -/
theorem c9_no_negatividad_condicional (raws : List RawRow) (p : Row → Bool)
    (hpos : ∀ raw ∈ raws,
      ∀ field ∈ [raw.gpc_dom, raw.qresiduos_dom, raw.qresiduos_no_dom,
        raw.residuos_municipales],
      ∀ q, parseDecimal (limpia_campo field) = some q → 0 ≤ q) :
    (∀ s : String, parseDecimal (limpia_campo s) = none → to_numeric_clean s = 0) ∧
    (∀ r ∈ load_data (some raws), campos_no_negativos r) ∧
    (∀ rows : List Row, (∀ r ∈ rows, campos_no_negativos r) →
      ∀ r ∈ rows.filter p, campos_no_negativos r) ∧
    (∀ rows : List Row, ∀ dep : String, ∀ sy ey : Int,
      (∀ r ∈ rows, campos_no_negativos r) →
      ∀ v ∈ top_variacion rows dep sy ey, 0 ≤ v.gpcStart ∧ 0 ≤ v.gpcEnd) ∧
    (∀ rows : List Row, ∀ dep dist : String, ∀ y : Int, ∀ dm : DetailMetrics,
      (∀ r ∈ rows, campos_no_negativos r) →
      create_pie_chart_and_metrics rows dep dist y = some dm →
      0 ≤ dm.residuos_dom ∧ 0 ≤ dm.residuos_no_dom ∧ 0 ≤ dm.total) := by
  have aux : ∀ s : String,
      (∀ q, parseDecimal (limpia_campo s) = some q → 0 ≤ q) → 0 ≤ to_numeric_clean s := by
    intro s hs
    rw [to_numeric_clean]
    cases hps : parseDecimal (limpia_campo s) with
    | none => exact le_refl 0
    | some q => exact hs q hps
  refine ⟨?_, ?_, ?_, ?_, ?_⟩
  · intro s hs
    rw [to_numeric_clean, hs]
    rfl
  · intro r hr
    rw [load_data, List.mem_map] at hr
    obtain ⟨raw, hraw, hcr⟩ := hr
    subst hcr
    exact ⟨aux _ (hpos raw hraw _ (by simp)), aux _ (hpos raw hraw _ (by simp)),
      aux _ (hpos raw hraw _ (by simp)), aux _ (hpos raw hraw _ (by simp))⟩
  · intro rows hrows r hrf
    exact hrows r (List.mem_of_mem_filter hrf)
  · intro rows dep sy ey hnn v hv
    obtain ⟨rs, hrs, re, hre, _, _, _, _, hvs, hve, _, _, _⟩ := mem_df_plot_top15 hv
    rw [mem_filtro_departamento] at hrs hre
    constructor
    · rw [hvs]
      exact (hnn rs hrs.1).1
    · rw [hve]
      exact (hnn re hre.1).1
  · intro rows dep dist y dm hnn hdm
    rw [create_pie_chart_and_metrics] at hdm
    cases hfilt : rows.filter
        (fun r => decide (r.departamento = dep ∧ r.distrito = dist ∧ r.anio = y)) with
    | nil =>
      rw [hfilt] at hdm
      cases hdm
    | cons fila rest =>
      rw [hfilt] at hdm
      injection hdm with hdm2
      subst hdm2
      have hfm : fila ∈ rows :=
        List.mem_of_mem_filter (hfilt ▸ List.mem_cons_self fila rest)
      have h := hnn fila hfm
      exact ⟨h.2.1, h.2.2.1, add_nonneg h.2.1 h.2.2.1⟩

/-- Witness for C9 as amended, on a row whose fields all fail to parse. -/
theorem c9_no_negatividad_condicional_witness :
    (∀ raw ∈ [filaMala],
      ∀ field ∈ [raw.gpc_dom, raw.qresiduos_dom, raw.qresiduos_no_dom,
        raw.residuos_municipales],
      ∀ q, parseDecimal (limpia_campo field) = some q → 0 ≤ q) ∧
    ((∀ s : String, parseDecimal (limpia_campo s) = none → to_numeric_clean s = 0) ∧
     (∀ r ∈ load_data (some [filaMala]), campos_no_negativos r) ∧
     (∀ rows : List Row, (∀ r ∈ rows, campos_no_negativos r) →
       ∀ r ∈ rows.filter (fun _ => true), campos_no_negativos r) ∧
     (∀ rows : List Row, ∀ dep : String, ∀ sy ey : Int,
       (∀ r ∈ rows, campos_no_negativos r) →
       ∀ v ∈ top_variacion rows dep sy ey, 0 ≤ v.gpcStart ∧ 0 ≤ v.gpcEnd) ∧
     (∀ rows : List Row, ∀ dep dist : String, ∀ y : Int, ∀ dm : DetailMetrics,
       (∀ r ∈ rows, campos_no_negativos r) →
       create_pie_chart_and_metrics rows dep dist y = some dm →
       0 ≤ dm.residuos_dom ∧ 0 ≤ dm.residuos_no_dom ∧ 0 ≤ dm.total)) := by
  have hyp : ∀ raw ∈ [filaMala],
      ∀ field ∈ [raw.gpc_dom, raw.qresiduos_dom, raw.qresiduos_no_dom,
        raw.residuos_municipales],
      ∀ q, parseDecimal (limpia_campo field) = some q → 0 ≤ q := by
    intro raw hraw field hfield q hq
    simp only [List.mem_singleton] at hraw
    subst hraw
    have hnone : parseDecimal (limpia_campo field) = none := by
      fin_cases hfield <;> decide
    rw [hnone] at hq
    cases hq
  exact ⟨hyp, c9_no_negatividad_condicional [filaMala] (fun _ => true) hyp⟩

/-- Claim C10: when several rows match the selected region, district and
year, the detail view is computed from the first matching row alone, the
displayed total being the sum of its domestic and non-domestic values;
the remaining matching rows are ignored. -/
theorem c10_primera_fila_detalle (df : List Row) (dep dist : String) (y : Int)
    (fila : Row) (rest : List Row)
    (hmatch : df.filter
      (fun r => decide (r.departamento = dep ∧ r.distrito = dist ∧ r.anio = y)) =
      fila :: rest)
    (_hdup : rest ≠ []) :
    create_pie_chart_and_metrics df dep dist y =
      some ⟨fila.qresiduos_dom, fila.qresiduos_no_dom,
        fila.qresiduos_dom + fila.qresiduos_no_dom⟩ := by
  rw [create_pie_chart_and_metrics, hmatch]

/-- Witness for C10 on a table with two rows for the same selection. -/
theorem c10_primera_fila_detalle_witness :
    (tablaDuplicados.filter
      (fun r => decide (r.departamento = "LIMA" ∧ r.distrito = "A" ∧ r.anio = 2019)) =
      (⟨"LIMA", "A", 2019, 1, 10, 20, 30⟩ : Row) :: [⟨"LIMA", "A", 2019, 2, 90, 80, 70⟩]) ∧
    ([(⟨"LIMA", "A", 2019, 2, 90, 80, 70⟩ : Row)] ≠ []) ∧
    create_pie_chart_and_metrics tablaDuplicados "LIMA" "A" 2019 =
      some ⟨10, 20, 10 + 20⟩ :=
  ⟨by decide, by decide,
    c10_primera_fila_detalle tablaDuplicados "LIMA" "A" 2019
      ⟨"LIMA", "A", 2019, 1, 10, 20, 30⟩ [⟨"LIMA", "A", 2019, 2, 90, 80, 70⟩]
      (by decide) (by decide)⟩
